import Mathlib

/-!
Shallow embedding of the Market-Intelligence-Engine campaign pipeline.

The definitions below are translated from the Python sources of the
repository, chiefly

  * backend/ai_engine.py        (class AIContentGenerator)
  * backend/localization.py     (class LocalizationEngine)
  * simple_server.py            (class RealDataEngine and the
                                 generate-campaign endpoint)

Python strings are modelled as Lean String values (both are sequences of
Unicode code points, so Python len and slicing agree with String.length
and List.take on the data field).  Python dict-get with a default is
modelled with Option.getD.  Apostrophes occurring inside source string
literals are written with the escape sequence for code point 39.
-/

/-- Python slice semantics: s[:n] keeps the first n code points. -/
def pyTake (n : Nat) (s : String) : String := String.mk (s.data.take n)

/-- Python lower(), applied code point by code point. -/
def pyLower (s : String) : String := String.mk (s.data.map Char.toLower)

/-- Whether the needle list occurs at the head of the haystack list. -/
def leadsList (needle hay : List Char) : Bool :=
  match needle, hay with
  | [], _ => true
  | _ :: _, [] => false
  | a :: as, b :: bs => a == b && leadsList as bs

/-- Whether the needle occurs contiguously anywhere in the haystack. -/
def occursIn (needle : List Char) : List Char → Bool
  | [] => leadsList needle []
  | b :: t => leadsList needle (b :: t) || occursIn needle t

/-- Python substring membership test on strings. -/
def pyIn (needle hay : String) : Bool := occursIn needle.data hay.data

/-- Python str.replace with a single-character pattern: every occurrence of
the target character is replaced by the replacement string. -/
def replaceCharList (target : Char) (repl : List Char) : List Char → List Char
  | [] => []
  | c :: t =>
      if c == target then repl ++ replaceCharList target repl t
      else c :: replaceCharList target repl t

/-- Python str.replace for a one-character pattern, on String values. -/
def pyReplaceChar (s : String) (target : Char) (repl : String) : String :=
  String.mk (replaceCharList target repl.data s.data)

/-- Python city.replace with a space pattern and empty replacement: removes
every space. -/
def removeSpaces (s : String) : String :=
  String.mk (s.data.filter (fun c => c != ' '))

/-- Python str.strip: drops leading and trailing whitespace.  Python strips
a slightly wider class (vertical tab and form feed as well); no string in
the theorems below contains those. -/
def pyStrip (s : String) : String :=
  String.mk
    (((s.data.dropWhile Char.isWhitespace).reverse.dropWhile
        Char.isWhitespace).reverse)

/-- Helper for Python str.split with a one-character separator. -/
def splitCharAux (sep : Char) : List Char → List Char → List String
  | [], acc => [String.mk acc.reverse]
  | c :: t, acc =>
      if c == sep then String.mk acc.reverse :: splitCharAux sep t []
      else splitCharAux sep t (c :: acc)

/-- Python str.split with a one-character separator: n separators yield
n + 1 pieces, and the empty string yields one empty piece. -/
def pySplitChar (s : String) (sep : Char) : List String :=
  splitCharAux sep s.data []

/-- Tone style ladder of RealDataEngine.generate_content
(simple_server.py, lines 150-158): three bands keyed on tone_scale. -/
def toneStyle (tone_scale : Int) : String :=
  if tone_scale ≤ 3 then "professional, formal, and informative"
  else if tone_scale ≥ 8 then
    "urgent, compelling, and action-oriented with FOMO elements"
  else "engaging, motivational, and persuasive"

/-- Urgency level set alongside toneStyle in the same ladder. -/
def urgencyLevel (tone_scale : Int) : String :=
  if tone_scale ≤ 3 then "low urgency"
  else if tone_scale ≥ 8 then "high urgency"
  else "moderate urgency"

/-- Hook pool of RealDataEngine._generate_fallback_content
(simple_server.py, lines 318-324); five f-string templates. -/
def hooksSS (course city : String) (positions : Nat) : List String :=
  [ "🚀 BREAKING: " ++ course ++ " market explodes in " ++ city ++ "!"
  , "💼 " ++ city ++ " professionals: Your " ++ course ++ " moment is NOW!"
  , "⚡ " ++ toString positions ++ "+ " ++ course ++
      " opportunities just opened in " ++ city
  , "🎯 " ++ course ++ " boom hits " ++ city ++ " - Are you ready?"
  , "🌟 " ++ city ++ "'s " ++ course ++ " revolution starts with YOU!" ]

/-- Value-proposition pool (simple_server.py, lines 326-332). -/
def valuePropsSS : List String :=
  [ "Industry-aligned curriculum designed by experts"
  , "Job placement assistance with 500+ hiring partners"
  , "Learn from industry leaders and practitioners"
  , "Hands-on projects with real-world applications"
  , "Career transformation in just 6-12 months" ]

/-- Urgency-element pool (simple_server.py, lines 334-340). -/
def urgencyElementsSS : List String :=
  [ "Limited seats available - Apply before they're gone!"
  , "Early bird discount ends soon!"
  , "Next batch starts in 2 weeks - Secure your spot!"
  , "Join 50,000+ successful career changers!"
  , "Don't let this opportunity pass you by!" ]

/-- Pool selection pool[variant_number % len(pool)]
(simple_server.py, lines 343-345). -/
def pickVariant (pool : List String) (variant_number : Nat) : String :=
  pool.getD (variant_number % pool.length) ""

/-- RealDataEngine._generate_fallback_content (simple_server.py, lines
314-354).  Selects hook, value proposition and urgency fragment by
variant_number modulo the pool size, then assembles one of three tone
templates.  The campaign_type parameter is accepted and ignored, exactly
as in the source. -/
def fallbackSS (course city : String) (positions companies : Nat)
    (tone_scale : Int) (variant_number : Nat) (campaign_type : String) :
    String :=
  let _ := campaign_type
  let hook := pickVariant (hooksSS course city positions) variant_number
  let value_prop := pickVariant valuePropsSS variant_number
  let urgency := pickVariant urgencyElementsSS variant_number
  if tone_scale ≤ 3 then
    hook ++ "\n\nDear Professional,\n\nWe're excited to share that " ++
    toString companies ++ " leading companies in " ++ city ++
    " are actively seeking " ++ course ++ " professionals. With " ++
    toString positions ++
    "+ positions available, this represents a significant career opportunity.\n\n✅ "
    ++ value_prop ++
    "\n✅ Comprehensive skill development program\n✅ Industry-recognized certification\n\nWe invite you to explore how upGrad can help you capitalize on this market demand.\n\nBest regards,\nupGrad Team"
  else if tone_scale ≥ 8 then
    "🔥 " ++ hook ++ "\n\n⏰ URGENT ALERT: " ++ toString positions ++ "+ " ++
    course ++ " jobs in " ++ city ++
    " are being SNATCHED UP FAST!\n\n" ++ toString companies ++
    " TOP COMPANIES are hiring RIGHT NOW:\n• Google • Microsoft • Amazon • Flipkart • And more!\n\n💰 Salaries up to ₹25 LPA!\n🚀 "
    ++ value_prop ++ "\n⚡ " ++ urgency ++
    "\n\n❌ DON'T MISS OUT - These opportunities won't wait!\n\n👉 APPLY NOW: [Link]\n\n#UrgentHiring #"
    ++ city ++ "Jobs #" ++ removeSpaces course ++ "Careers"
  else
    hook ++ "\n\nHey " ++ city ++
    " professionals! 👋\n\nThe " ++ course ++
    " job market is absolutely booming right now! Here's what's happening:\n\n📊 Market Snapshot:\n• "
    ++ toString positions ++ "+ open positions\n• " ++ toString companies ++
    " companies actively hiring\n• Average salary growth: 40-60%\n• High demand, low supply = YOUR opportunity!\n\n🎓 Why upGrad?\n✅ "
    ++ value_prop ++
    "\n✅ Live classes with industry experts\n✅ 1:1 mentorship and career guidance\n✅ Job guarantee program*\n\n🎯 "
    ++ urgency ++
    "\n\nReady to transform your career? Let's make it happen!\n\nApply now: [Link]"

/-- Numeric quadruple underlying AIContentGenerator._predict_performance
(ai_engine.py, lines 280-320).  The source computes these values as
floats and then formats them for display with one decimal; the embedding
keeps the exact rational values of the same arithmetic. -/
structure PredictNums where
  ctr : ℚ
  conversion_rate : ℚ
  roas : ℚ
  cost_per_conversion : ℚ
deriving DecidableEq

/-- The city_data sub-dict of a market context, with each key optional as
dict-get with defaults reads it. -/
structure CityData where
  total_positions : Option Nat
  companies_hiring : Option Nat
  market_score : Option ℚ
deriving DecidableEq

/-- The market_context dict as the generation pipeline reads it: only the
city_data key is consulted by the fallback and the predictor.  The keys
read solely by prompt assembly (course_relevance, market_summary,
campaign_hooks) are not modelled. -/
structure MarketContext where
  city_data : Option CityData
deriving DecidableEq

/-- The structured content dict of the pipeline.  The predictions field
models the presence of the predictions key: the fallback dict has no such
key, the success path of generate_campaign_content adds it. -/
structure GeneratedContent where
  email_subject : String
  email_body : String
  social_post : String
  call_to_action : String
  key_benefits : List String
  predictions : Option PredictNums
deriving DecidableEq

/-- A row of the per-course multiplier table of _predict_performance. -/
structure CourseMult where
  ctr : ℚ
  conversion : ℚ
  roas : ℚ
  cost : ℚ
deriving DecidableEq

/-- Course multiplier table (ai_engine.py, lines 294-302); an unknown
course falls back to the Data Science row. -/
def courseMultipliers (course : String) : CourseMult :=
  if course = "AI/ML" then ⟨1.4, 1.3, 1.3, 0.8⟩
  else if course = "Generative AI" then ⟨1.2, 1.1, 1.1, 0.9⟩
  else if course = "Data Science" then ⟨1.1, 1.0, 1.0, 1.0⟩
  else if course = "MSc Finance" then ⟨0.9, 0.9, 0.9, 1.1⟩
  else ⟨1.1, 1.0, 1.0, 1.0⟩

/-- AIContentGenerator._predict_performance (ai_engine.py, lines 280-320):
base rates, course multiplier, market boost 1 + market_score/20 that
multiplies ctr, conversion and roas and divides cost.  The city and
campaign_type parameters are accepted and never used, as in the source. -/
def predictPerformance (course city campaign_type : String)
    (market_context : MarketContext) : PredictNums :=
  let _ := city
  let _ := campaign_type
  let base_ctr : ℚ := 0.12
  let base_conversion : ℚ := 0.05
  let base_roas : ℚ := 3.2
  let base_cost : ℚ := 300
  let multiplier := courseMultipliers course
  let market_score : ℚ :=
    match market_context.city_data with
    | none => 5
    | some cd => cd.market_score.getD 5
  let market_boost : ℚ := 1 + market_score / 20
  { ctr := base_ctr * multiplier.ctr * market_boost
  , conversion_rate := base_conversion * multiplier.conversion * market_boost
  , roas := base_roas * multiplier.roas * market_boost
  , cost_per_conversion := base_cost * multiplier.cost / market_boost }

/-- AIContentGenerator._generate_fallback_content (ai_engine.py, lines
195-240): template content keyed by course (unknown courses use the AI/ML
row), with positions and companies read from market_context city_data
under defaults 1000 and 50.  No truncation is applied here.  The
campaign_type parameter is accepted and unused, as in the source.  The
source file stores the emoji of these templates in mojibake form (UTF-8
bytes shown as Latin-1); the embedding copies those characters exactly as
they stand in the file. -/
def fallbackContentAI (course city campaign_type : String)
    (market_context : MarketContext) : GeneratedContent :=
  let _ := campaign_type
  let positions : Nat :=
    match market_context.city_data with
    | none => 1000
    | some cd => cd.total_positions.getD 1000
  let companies : Nat :=
    match market_context.city_data with
    | none => 50
    | some cd => cd.companies_hiring.getD 50
  let template : String × String × String × String :=
    if course = "Data Science" then
      ( city ++ " Data Gold Rush: " ++ toString positions ++ "+ Opportunities!"
      , "[Name], " ++ city ++ "'s data landscape is exploding with " ++
        toString positions ++ "+ opportunities across " ++ toString companies ++
        "+ companies! Master Data Science with upGrad's industry-aligned program. Real projects, expert mentorship, and career transformation guaranteed. Your data-driven future starts now!"
      , "ðŸ“Š " ++ city ++ " needs data wizards! " ++ toString positions ++
        "+ positions, " ++ toString companies ++
        "+ companies. Become the data hero! #DataScience #upGrad #" ++
        removeSpaces city
      , "Start Your Data Science Journey Today!" )
    else if course = "Generative AI" then
      ( city ++ " GenAI Boom: Create Your Future Today!"
      , "Ready to shape the future, [Name]? " ++ city ++
        "'s GenAI sector is booming with " ++ toString positions ++
        "+ opportunities! Master Generative AI with upGrad and unlock unlimited potential. From ChatGPT to image generation - learn it all. Transform your career in the AI revolution!"
      , "âœ¨ GenAI is transforming " ++ city ++
        "! Create, innovate, earn big. Join the revolution! #GenerativeAI #upGrad #"
        ++ removeSpaces city
      , "Master Generative AI - Enroll Now!" )
    else
      ( city ++ "'s AI Boom: " ++ toString positions ++ "+ Jobs - Upskill Now!"
      , "Hey [Name], " ++ city ++
        " is experiencing unprecedented AI/ML growth with " ++
        toString positions ++ "+ positions across " ++ toString companies ++
        "+ companies. Join upGrad's comprehensive " ++ course ++
        " program and ride the wave of AI transformation. Industry experts, hands-on projects, and guaranteed career support. Limited seats - enroll today!"
      , "ðŸš€ " ++ city ++ " AI revolution is HERE! " ++ toString positions ++
        "+ jobs, " ++ toString companies ++
        "+ companies hiring. Ready to level up? #upGrad #AIJobs #" ++
        removeSpaces city ++ "Tech"
      , "Enroll in AI/ML Program - Limited Seats!" )
  { email_subject := template.1
  , email_body := template.2.1
  , social_post := template.2.2.1
  , call_to_action := template.2.2.2
  , key_benefits :=
      [ "Access to " ++ toString positions ++ "+ job opportunities"
      , "Industry-expert led curriculum"
      , "Guaranteed career support" ]
  , predictions := none }

/-- The five capture groups of the labelled-section regexes of
_parse_ai_response, none when the label is absent.  The regex engine
itself stands outside the embedding; theorems quantify over every
possible capture outcome. -/
structure ParsedFields where
  subject : Option String
  body : Option String
  social : Option String
  cta : Option String
  benefits : Option String
deriving DecidableEq

/-- Field assembly of AIContentGenerator._parse_ai_response (ai_engine.py,
lines 242-273) on a text response: strip each captured group or
substitute the synthesized default, split benefits on the pipe character
and keep at most three, truncate subject to 60 and social post to 280 as
the last step. -/
def parseFields (f : ParsedFields) (course city : String) : GeneratedContent :=
  let email_subject := (f.subject.map pyStrip).getD
    (city ++ " " ++ course ++ " Opportunity - Transform Your Career!")
  let email_body := (f.body.map pyStrip).getD
    ("Exciting " ++ course ++ " opportunities in " ++ city ++ ". Join upGrad today!")
  let social_post := (f.social.map pyStrip).getD
    ("ðŸš€ " ++ course ++ " opportunities in " ++ city ++ "! #upGrad")
  let call_to_action := (f.cta.map pyStrip).getD ("Enroll Now - Limited Seats!")
  let benefits : List String :=
    match f.benefits with
    | some t => (pySplitChar (pyStrip t) '|').map pyStrip
    | none => ["Career advancement", "Salary increase", "Industry recognition"]
  { email_subject := pyTake 60 email_subject
  , email_body := email_body
  , social_post := pyTake 280 social_post
  , call_to_action := call_to_action
  , key_benefits := benefits.take 3
  , predictions := none }

/-- The value handed to _parse_ai_response: the raw text of a model
response, or the dict that _generate_fallback_content returned (the
no-model branch of generate_campaign_content passes that dict). -/
inductive AiContent where
  | text (s : String)
  | dict (c : GeneratedContent)

/-- AIContentGenerator._parse_ai_response (ai_engine.py, lines 242-278).
On a string the extraction and field assembly run and cannot raise.  On a
dict, re.search raises TypeError at once; the except branch of the source
then returns _generate_fallback_content(course, city, "Email", empty
dict) — the literal campaign type and an empty market context, not the
original ones. -/
def parse_ai_response (capture : String → ParsedFields) (ai_response : AiContent)
    (course city : String) : GeneratedContent :=
  match ai_response with
  | AiContent.text s => parseFields (capture s) course city
  | AiContent.dict _ => fallbackContentAI course city ("Email") { city_data := none }

/-- Outcome of the external generative call: noModel when self.model is
None (no credential configured), failure when the call raised, success
with the raw response text otherwise. -/
inductive GeminiResult where
  | noModel : GeminiResult
  | failure : GeminiResult
  | success (text : String) : GeminiResult

/-- The statement that stores predictions on the structured content dict. -/
def withPredictions (g : GeneratedContent) (p : PredictNums) : GeneratedContent :=
  { g with predictions := some p }

/-- AIContentGenerator.generate_campaign_content (ai_engine.py, lines
90-120).  Inside the try block: prompt assembly (pure string work on the
typed inputs, it cannot raise and is not modelled), dispatch to the model
or to the fallback, parsing, and attaching predictions.  Any exception
inside the try is caught and answered with the fallback computed from the
same inputs; with no model configured the fallback dict flows into
_parse_ai_response, whose internal except replaces it as described
there. -/
def generate_campaign_content (gemini : GeminiResult)
    (capture : String → ParsedFields) (course city campaign_type : String)
    (market_context : MarketContext) : GeneratedContent :=
  match gemini with
  | GeminiResult.failure => fallbackContentAI course city campaign_type market_context
  | GeminiResult.success t =>
      withPredictions (parse_ai_response capture (AiContent.text t) course city)
        (predictPerformance course city campaign_type market_context)
  | GeminiResult.noModel =>
      withPredictions
        (parse_ai_response capture
          (AiContent.dict (fallbackContentAI course city campaign_type market_context))
          course city)
        (predictPerformance course city campaign_type market_context)

/-- A row of the hiring table as RealDataEngine reads it: the city column,
the numeric positions column and the optional salary column value.  The
notna and header-row filters of the source remove artifacts of the
spreadsheet load that typed rows cannot carry; the length filter on city
names is kept. -/
structure HiringRow where
  city : String
  positions : Nat
  salary : Option String
deriving DecidableEq

/-- The snapshot dict returned by RealDataEngine.get_city_insights. -/
structure CityInsights where
  positions_available : Nat
  companies_hiring : Nat
  avg_salary : String
  top_skills : List String
  growth_rate : String
deriving DecidableEq

/-- Case-insensitive substring match of pandas str.contains with a plain
pattern (simple_server.py, line 434). -/
def pyContains (hay needle : String) : Bool :=
  occursIn (pyLower needle).data (pyLower hay).data

/-- Mode of the salary column.  pandas sorts values of equal frequency and
returns the smallest first; the embedding keeps the first value of
maximal count in first-occurrence order, a tie-break nothing below
depends on. -/
def pandasMode (l : List String) : Option String :=
  l.dedup.foldl
    (fun acc v =>
      match acc with
      | none => some v
      | some b => if l.count v > l.count b then some v else acc)
    none

/-- Hardcoded per-city fallback numbers of get_city_insights
(simple_server.py, lines 470-481), with the default row for unknown
cities. -/
def fallbackCityNumbers (city : String) : Nat × Nat :=
  if city = "Bangalore" then (2500, 85)
  else if city = "Mumbai" then (1800, 62)
  else if city = "Delhi NCR" then (2200, 78)
  else if city = "Hyderabad" then (1600, 55)
  else if city = "Chennai" then (1400, 48)
  else if city = "Pune" then (1200, 42)
  else if city = "Ahmedabad" then (800, 28)
  else if city = "Kolkata" then (900, 32)
  else (1000, 35)

/-- The fallback snapshot built from the hardcoded table
(simple_server.py, lines 469-488). -/
def fallbackInsights (city : String) : CityInsights :=
  { positions_available := (fallbackCityNumbers city).1
  , companies_hiring := (fallbackCityNumbers city).2
  , avg_salary := "₹12-18 LPA"
  , top_skills := ["Python", "Machine Learning", "Data Analysis"]
  , growth_rate := "+15% YoY" }

/-- The rows that survive cleaning and match the requested city
(simple_server.py, lines 415-434); empty when no data is loaded. -/
def matchedRows (store : Option (List HiringRow)) (city : String) :
    List HiringRow :=
  match store with
  | none => []
  | some rows =>
      (rows.filter (fun r => r.city.length > 2)).filter
        (fun r => pyContains r.city city)

/-- The snapshot computed from matched rows (simple_server.py, lines
436-465); get_top_skills_for_city always returns the fixed skill list. -/
def computedInsights (matched : List HiringRow) : CityInsights :=
  { positions_available := (matched.map (fun r => r.positions)).sum
  , companies_hiring := matched.length
  , avg_salary := (pandasMode (matched.filterMap (fun r => r.salary))).getD
      ("₹12-18 LPA")
  , top_skills := ["Python", "Machine Learning", "Data Analysis"]
  , growth_rate := "+15% YoY" }

/-- RealDataEngine.get_city_insights (simple_server.py, lines 411-488).
The whole computed branch sits inside a try whose except logs a warning
and falls through to the fallback table, so the operation is total: every
exception path and the no-match path end in the fallback snapshot. -/
def get_city_insights (store : Option (List HiringRow)) (city : String) :
    CityInsights :=
  let matched := matchedRows store city
  if matched.isEmpty then fallbackInsights city else computedInsights matched

/-- RealDataEngine.generate_content (simple_server.py, lines 135-312) on
the English-language path: market numbers come from get_city_insights on
the same city; with a configured key the model response text is returned
as is, a raised call falls back, and without a key the fallback runs
directly — both fallback calls pass the same inputs.  Prompt assembly is
pure string work on the typed inputs and cannot raise; it is not
modelled. -/
def generate_content_ss (gemini : GeminiResult)
    (store : Option (List HiringRow)) (course city campaign_type : String)
    (tone_scale : Int) (variant_number : Nat) : String :=
  let insights := get_city_insights store city
  let positions := insights.positions_available
  let companies := insights.companies_hiring
  match gemini with
  | GeminiResult.success t => t
  | GeminiResult.failure =>
      fallbackSS course city positions companies tone_scale variant_number
        campaign_type
  | GeminiResult.noModel =>
      fallbackSS course city positions companies tone_scale variant_number
        campaign_type

/-- A per-city context dict of LocalizationEngine._load_city_contexts
(localization.py, lines 27-134), restricted to the keys the embedded
operations read.  The city field models the presence of a city key in the
dict: the literals of _load_city_contexts define no such key, so every
table entry carries none.  The remaining keys of the source dicts
(industries, events, hashtags, references, and so on) feed only the body
and social localizers, which are outside the claims. -/
structure CityContext where
  nickname : String
  market_sentiment : String
  city : Option String
deriving DecidableEq

/-- The city-context table (localization.py, lines 27-134). -/
def cityContexts (city : String) : Option CityContext :=
  if city = "Bangalore" then
    some { nickname := "Silicon Valley of India"
         , market_sentiment := "High competition, growth-oriented, startup culture"
         , city := none }
  else if city = "Mumbai" then
    some { nickname := "Financial Capital of India"
         , market_sentiment := "Networking-focused, premium positioning, ambitious"
         , city := none }
  else if city = "Delhi NCR" then
    some { nickname := "Corporate Hub of India"
         , market_sentiment := "Authority-respecting, status-conscious, traditional"
         , city := none }
  else if city = "Hyderabad" then
    some { nickname := "Cyberabad"
         , market_sentiment := "Value-focused, pragmatic, family-oriented"
         , city := none }
  else if city = "Chennai" then
    some { nickname := "Detroit of India"
         , market_sentiment := "Quality-focused, relationship-driven, conservative"
         , city := none }
  else if city = "Pune" then
    some { nickname := "Oxford of the East"
         , market_sentiment := "Learning-oriented, collaborative, student-friendly"
         , city := none }
  else if city = "Ahmedabad" then
    some { nickname := "Manchester of India"
         , market_sentiment := "Entrepreneurial, cost-effective, business-oriented"
         , city := none }
  else if city = "Kolkata" then
    some { nickname := "Cultural Capital of India"
         , market_sentiment := "Intellectual, culture-appreciating, traditional"
         , city := none }
  else none

/-- LocalizationEngine._localize_subject (localization.py, lines 240-255):
append the nickname separator when the nickname is nonempty and absent,
then, when the market sentiment mentions high competition, run Python
str.replace on the exclamation mark (which rewrites every occurrence),
and truncate to 60 characters last. -/
def localize_subject (subject : String) (context : CityContext) : String :=
  let nickname := context.nickname
  let subject1 :=
    if nickname != "" && !(pyIn nickname subject) then
      subject ++ " | " ++ nickname
    else subject
  let sentiment := context.market_sentiment
  let subject2 :=
    if pyIn ("high competition") (pyLower sentiment) then
      pyReplaceChar subject1 '!' (" - Act Fast!")
    else subject1
  pyTake 60 subject2

/-- A regional phrase-table row of _load_regional_languages. -/
structure RegionalPhrases where
  hello : String
  opportunity : String
  career : String
  success : String
deriving DecidableEq

/-- The regional phrase table of LocalizationEngine._load_regional_languages
(localization.py, lines 136-175): six cities have entries. -/
def regionalLanguages (city : String) : Option RegionalPhrases :=
  if city = "Bangalore" then some ⟨"Namaskara", "Avakasha", "Vyavasaya", "Safalate"⟩
  else if city = "Mumbai" then some ⟨"Namaskar", "Mauka", "Career", "Safalta"⟩
  else if city = "Delhi NCR" then some ⟨"Namaste", "Mauka", "Career", "Safalta"⟩
  else if city = "Hyderabad" then some ⟨"Namaste", "Avakasam", "Udyogam", "Vijayam"⟩
  else if city = "Chennai" then some ⟨"Vanakkam", "Vaaipu", "Thozhil", "Vetri"⟩
  else if city = "Pune" then some ⟨"Namaskar", "Sandhi", "Vyavasaya", "Yash"⟩
  else none

/-- LocalizationEngine._create_regional_version (localization.py, lines
305-323).  The content argument is accepted and never read, as in the
source.  The city is looked up on the context dict with default empty
string; the phrase defaults of the source never fire once a table row is
found, and the nickname default falls back to the looked-up city. -/
def create_regional_version (content : GeneratedContent)
    (context : CityContext) : String :=
  let _ := content
  let city := context.city.getD ""
  match regionalLanguages city with
  | none => "Regional version not available for this city."
  | some r =>
      r.hello ++ "! " ++ context.nickname ++ " mein " ++ r.opportunity ++
      " hai! " ++ "Apna " ++ r.career ++ " transform karo aur " ++ r.success ++
      " pao upGrad ke saath!"

/-- Replacement of only the first occurrence of the target character: the
reading the claim takes of the urgency rewrite in subject localization. -/
def replaceFirstCharList (target : Char) (repl : List Char) :
    List Char → List Char
  | [] => []
  | c :: t =>
      if c == target then repl ++ t else c :: replaceFirstCharList target repl t

/-- The first-occurrence replacement on String values, the operation the
claim describes for the subject urgency rewrite. -/
def pyReplaceFirstChar (s : String) (target : Char) (repl : String) : String :=
  String.mk (replaceFirstCharList target repl.data s.data)

/-- A capture outcome in which no label of the response matched. -/
def captureNone : String → ParsedFields := fun _ => ⟨none, none, none, none, none⟩

/-- A market context whose city_data carries the Bangalore fallback-table
numbers, used to instantiate theorems at a concrete input. -/
def mcBangalore : MarketContext :=
  { city_data := some
      { total_positions := some 2500
      , companies_hiring := some 85
      , market_score := none } }

/-- A market context carrying only a market score. -/
def mcWithScore (s : ℚ) : MarketContext :=
  { city_data := some
      { total_positions := none
      , companies_hiring := none
      , market_score := some s } }

/-- The Bangalore row of the city-context table, as a named constant. -/
def bangaloreContext : CityContext :=
  { nickname := "Silicon Valley of India"
  , market_sentiment := "High competition, growth-oriented, startup culture"
  , city := none }

/-- A concrete structured-content value used to instantiate theorems. -/
def sampleContent : GeneratedContent :=
  { email_subject := "Upskill Now!"
  , email_body := "Body"
  , social_post := "Post"
  , call_to_action := "Enroll"
  , key_benefits := []
  , predictions := none }

/-- C4: the tone band chosen by content generation is a pure function of
tone_scale with exactly three bands: for every tone_scale in 1..10 a
value at most 3 gives the formal band, a value at least 8 gives the
urgent band, and everything else gives the balanced band; in particular 3
is formal, 4 and 7 are balanced, 8 is urgent, and the three band strings
are pairwise distinct. -/
theorem c4_tone_bands (t : Int) (h1 : 1 ≤ t) (h2 : t ≤ 10) :
    ((t ≤ 3 ↔ toneStyle t = "professional, formal, and informative")
      ∧ (8 ≤ t ↔ toneStyle t =
          "urgent, compelling, and action-oriented with FOMO elements")
      ∧ ((4 ≤ t ∧ t ≤ 7) ↔ toneStyle t =
          "engaging, motivational, and persuasive"))
    ∧ (toneStyle 3 = "professional, formal, and informative"
      ∧ toneStyle 4 = "engaging, motivational, and persuasive"
      ∧ toneStyle 7 = "engaging, motivational, and persuasive"
      ∧ toneStyle 8 =
          "urgent, compelling, and action-oriented with FOMO elements") := by
  refine ⟨?_, by decide⟩
  interval_cases t <;> exact ⟨by decide, by decide, by decide⟩

/-- Witness for C4 at tone_scale 5: the hypotheses hold and the balanced
band is selected. -/
theorem c4_tone_bands_witness :
    (1 ≤ (5 : Int)) ∧ ((5 : Int) ≤ 10) ∧
      toneStyle 5 = "engaging, motivational, and persuasive" :=
  ⟨by decide, by decide,
    ((c4_tone_bands 5 (by decide) (by decide)).1.2.2).mp (by decide)⟩

/-- C5: when the parsed model response contains a BENEFITS capture with at
least 3 pipe-separated items, key_benefits has exactly 3 entries; with
fewer items it has exactly that smaller number — the parser truncates to
3 and never pads a parsed list. -/
theorem c5_benefits_arity (f : ParsedFields) (course city t : String)
    (hb : f.benefits = some t) :
    (3 ≤ (pySplitChar (pyStrip t) '|').length →
        (parseFields f course city).key_benefits.length = 3)
    ∧ ((pySplitChar (pyStrip t) '|').length < 3 →
        (parseFields f course city).key_benefits.length =
          (pySplitChar (pyStrip t) '|').length) := by
  have hk : (parseFields f course city).key_benefits =
      ((pySplitChar (pyStrip t) '|').map pyStrip).take 3 := by
    simp [parseFields, hb]
  constructor <;> intro h <;>
    simp [hk, List.length_take, List.length_map] <;> omega

/-- Witness for C5: a BENEFITS capture with four items yields exactly three
benefits. -/
theorem c5_benefits_arity_witness :
    (({ subject := none, body := none, social := none, cta := none
      , benefits := some ("A|B|C|D") } : ParsedFields).benefits =
        some ("A|B|C|D"))
    ∧ 3 ≤ (pySplitChar (pyStrip ("A|B|C|D")) '|').length
    ∧ (parseFields
        { subject := none, body := none, social := none, cta := none
        , benefits := some ("A|B|C|D") } ("AI/ML") ("Pune")).key_benefits.length
        = 3 :=
  ⟨rfl, by decide,
    (c5_benefits_arity
      { subject := none, body := none, social := none, cta := none
      , benefits := some ("A|B|C|D") } ("AI/ML") ("Pune") ("A|B|C|D") rfl).1
      (by decide)⟩

/-- C10: all three fallback pools have exactly 5 entries and selection is
variant_number mod 5, so the fallback generator returns identical content
for variant_number n and n + 5, and every variant equals the one at n mod
5 — at most 5 distinct fallback variants exist even though a request may
ask for up to 10. -/
theorem c10_variant_period (course city : String) (positions companies : Nat)
    (tone_scale : Int) (variant_number : Nat) (campaign_type : String) :
    (hooksSS course city positions).length = 5
    ∧ valuePropsSS.length = 5
    ∧ urgencyElementsSS.length = 5
    ∧ fallbackSS course city positions companies tone_scale
        (variant_number + 5) campaign_type =
      fallbackSS course city positions companies tone_scale
        variant_number campaign_type
    ∧ fallbackSS course city positions companies tone_scale
        variant_number campaign_type =
      fallbackSS course city positions companies tone_scale
        (variant_number % 5) campaign_type := by
  have l1 : (hooksSS course city positions).length = 5 := rfl
  have l2 : valuePropsSS.length = 5 := rfl
  have l3 : urgencyElementsSS.length = 5 := rfl
  have h1 : (variant_number + 5) % 5 = variant_number % 5 := by omega
  have h2 : variant_number % 5 % 5 = variant_number % 5 := by omega
  refine ⟨rfl, rfl, rfl, ?_, ?_⟩ <;>
    simp only [fallbackSS, pickVariant, l1, l2, l3, h1, h2]

/-- C3: in fallback mode two runs with identical inputs produce identical
content (the embedded generator is a pure function of its arguments; the
source consults no randomness, time or external state on this path), and
variant 1 versus variant 2 select different hook and value-proposition
fragments. -/
theorem c3_determinism_and_distinct_variants (course city : String)
    (positions companies : Nat) (tone_scale : Int) (campaign_type : String) :
    (∀ variant_number : Nat,
      fallbackSS course city positions companies tone_scale variant_number
          campaign_type =
        fallbackSS course city positions companies tone_scale variant_number
          campaign_type)
    ∧ pickVariant (hooksSS course city positions) 1 ≠
        pickVariant (hooksSS course city positions) 2
    ∧ pickVariant valuePropsSS 1 ≠ pickVariant valuePropsSS 2 := by
  refine ⟨fun _ => rfl, ?_, by decide⟩
  intro h
  have e1 : (pickVariant (hooksSS course city positions) 1).data.head? =
      some '💼' := rfl
  have e2 : (pickVariant (hooksSS course city positions) 2).data.head? =
      some '⚡' := rfl
  rw [h, e2] at e1
  exact absurd e1 (by decide)

/-- C6: for every store and city string (the empty string and never-seen
names included), when no data row matches, the city lookup returns the
well-formed snapshot drawn from the hardcoded per-city default table,
with all five fields populated; the embedded operation is total, as every
exception path of the source is caught and lands on this fallback. -/
theorem c6_city_lookup_fallback (store : Option (List HiringRow))
    (city : String) (h : matchedRows store city = []) :
    get_city_insights store city = fallbackInsights city
    ∧ (fallbackInsights city).avg_salary = "₹12-18 LPA"
    ∧ (fallbackInsights city).top_skills =
        ["Python", "Machine Learning", "Data Analysis"]
    ∧ (fallbackInsights city).growth_rate = "+15% YoY" := by
  refine ⟨?_, rfl, rfl, rfl⟩
  simp [get_city_insights, h]

/-- Witness for C6: an empty store and an unknown city match no row and
receive the default-table snapshot. -/
theorem c6_city_lookup_fallback_witness :
    matchedRows (some []) ("Atlantis") = []
    ∧ get_city_insights (some []) ("Atlantis") = fallbackInsights ("Atlantis") :=
  ⟨rfl, (c6_city_lookup_fallback (some []) ("Atlantis") rfl).1⟩

/-- C1 (amended): campaign content generation is total — it never raises to
its caller.  An exception in the external generative call returns the
fallback computed from the same inputs, and a successful response is
parsed with predictions from the same inputs attached.  But an exception
during parsing — which the no-model path triggers, since the fallback
dict reaches re.search and raises TypeError — returns the fallback
computed from the same course and city with the literal campaign type
Email and an empty market context (so the 1000 and 50 defaults), plus
predictions from the original inputs: not the fallback of the original
market context. -/
theorem c1_failure_semantics (capture : String → ParsedFields)
    (course city campaign_type : String) (market_context : MarketContext) :
    generate_campaign_content GeminiResult.failure capture course city
        campaign_type market_context =
      fallbackContentAI course city campaign_type market_context
    ∧ generate_campaign_content GeminiResult.noModel capture course city
        campaign_type market_context =
      withPredictions
        (fallbackContentAI course city ("Email") { city_data := none })
        (predictPerformance course city campaign_type market_context)
    ∧ ∀ t, generate_campaign_content (GeminiResult.success t) capture course
        city campaign_type market_context =
      withPredictions (parseFields (capture t) course city)
        (predictPerformance course city campaign_type market_context) :=
  ⟨rfl, rfl, fun _ => rfl⟩

/-- C1 counterexample: with no model configured a parsing exception occurs
(re.search applied to the fallback dict raises TypeError), and the
operation does NOT return the fallback computed from the same market
context: the original context carries 2500 positions, the returned
subject quotes the empty-context default of 1000. -/
theorem c1_counterexample :
    (generate_campaign_content GeminiResult.noModel captureNone ("AI/ML")
        ("Bangalore") ("email") mcBangalore).email_subject ≠
      (fallbackContentAI ("AI/ML") ("Bangalore") ("email")
        mcBangalore).email_subject := by
  decide

/-- C2 (amended): content assembled by the response parser does satisfy the
bounds — email_subject at most 60 characters and social_post at most 280,
truncation applied at the end of parsing — for every capture outcome. -/
theorem c2_parse_truncation (f : ParsedFields) (course city : String) :
    (parseFields f course city).email_subject.length ≤ 60
    ∧ (parseFields f course city).social_post.length ≤ 280 := by
  constructor <;>
    (simp [parseFields, pyTake, String.length_mk, List.length_take]; try omega)

/-- C2 counterexample: fallback-template content bypasses truncation, so a
long city name drives the pipeline output past the 60-character subject
bound (the external call failed, the fallback is returned untruncated). -/
theorem c2_counterexample :
    60 < (generate_campaign_content GeminiResult.failure captureNone ("AI/ML")
        ("Sri Venkateswara Industrial Development Zone Extension Phase Two")
        ("email") { city_data := none }).email_subject.length := by
  decide

/-- Characterization of the predictor on a context carrying only a market
score: the four metrics as explicit boost-factor arithmetic. -/
theorem predictPerformance_mcWithScore (course city campaign_type : String)
    (s : ℚ) :
    predictPerformance course city campaign_type (mcWithScore s) =
      { ctr := 0.12 * (courseMultipliers course).ctr * (1 + s / 20)
      , conversion_rate :=
          0.05 * (courseMultipliers course).conversion * (1 + s / 20)
      , roas := 3.2 * (courseMultipliers course).roas * (1 + s / 20)
      , cost_per_conversion :=
          300 * (courseMultipliers course).cost / (1 + s / 20) } := rfl

/-- Every row of the course multiplier table is positive in all four
components, the unknown-course default row included. -/
theorem courseMultipliers_pos (course : String) :
    0 < (courseMultipliers course).ctr
    ∧ 0 < (courseMultipliers course).conversion
    ∧ 0 < (courseMultipliers course).roas
    ∧ 0 < (courseMultipliers course).cost := by
  unfold courseMultipliers
  split_ifs <;> exact ⟨by norm_num, by norm_num, by norm_num, by norm_num⟩

/-- C7: in the heuristic predictor, increasing market_score while holding
course, city, campaign_type and all other parameters fixed strictly
increases the predicted ctr, conversion rate and roas and strictly
decreases the predicted cost per conversion, via the boost factor
1 + market_score/20 that multiplies the first three and divides the
cost. -/
theorem c7_predictor_monotone (course city campaign_type : String)
    (s₁ s₂ : ℚ) (h0 : 0 ≤ s₁) (h12 : s₁ < s₂) :
    (predictPerformance course city campaign_type (mcWithScore s₁)).ctr <
      (predictPerformance course city campaign_type (mcWithScore s₂)).ctr
    ∧ (predictPerformance course city campaign_type
        (mcWithScore s₁)).conversion_rate <
      (predictPerformance course city campaign_type
        (mcWithScore s₂)).conversion_rate
    ∧ (predictPerformance course city campaign_type (mcWithScore s₁)).roas <
      (predictPerformance course city campaign_type (mcWithScore s₂)).roas
    ∧ (predictPerformance course city campaign_type
        (mcWithScore s₂)).cost_per_conversion <
      (predictPerformance course city campaign_type
        (mcWithScore s₁)).cost_per_conversion := by
  obtain ⟨hc, hv, hr, hk⟩ := courseMultipliers_pos course
  have hb1 : (0 : ℚ) < 1 + s₁ / 20 := by linarith
  have hb2 : (1 + s₁ / 20 : ℚ) < 1 + s₂ / 20 := by linarith
  simp only [predictPerformance_mcWithScore]
  exact ⟨mul_lt_mul_of_pos_left hb2 (mul_pos (by norm_num) hc),
    mul_lt_mul_of_pos_left hb2 (mul_pos (by norm_num) hv),
    mul_lt_mul_of_pos_left hb2 (mul_pos (by norm_num) hr),
    div_lt_div_of_pos_left (mul_pos (by norm_num) hk) hb1 hb2⟩

/-- Witness for C7 at market scores 0 and 10 with the AI/ML course. -/
theorem c7_predictor_monotone_witness :
    ((0 : ℚ) ≤ 0) ∧ ((0 : ℚ) < 10)
    ∧ (predictPerformance ("AI/ML") ("Bangalore") ("email")
        (mcWithScore 0)).ctr <
      (predictPerformance ("AI/ML") ("Bangalore") ("email")
        (mcWithScore 10)).ctr :=
  ⟨le_refl 0, by norm_num,
    (c7_predictor_monotone ("AI/ML") ("Bangalore") ("email") 0 10 (le_refl 0)
      (by norm_num)).1⟩

/-- The single-character Python replace written as a flat map: every
occurrence of the target becomes the replacement and every other
character is kept. -/
theorem replaceCharList_eq_bind (target : Char) (repl : List Char)
    (l : List Char) :
    replaceCharList target repl l =
      l.flatMap (fun c => if c == target then repl else [c]) := by
  induction l with
  | nil => rfl
  | cons c t ih =>
      by_cases h : c = target <;>
        simp [replaceCharList, List.flatMap_cons, ih, beq_iff_eq, h]

/-- C8 (amended): for a context whose market sentiment mentions high
competition and whose nickname is already present in the subject (so no
append happens), subject localization replaces EVERY exclamation mark —
not only the first — with the urgency phrase, and the 60-character
truncation is applied after that replacement as the final step. -/
theorem c8_subject_localization (subject : String) (context : CityContext)
    (hsent : pyIn ("high competition") (pyLower context.market_sentiment) =
      true)
    (hnick : pyIn context.nickname subject = true) :
    localize_subject subject context =
      pyTake 60 (String.mk (subject.data.flatMap
        (fun c => if c == '!' then (" - Act Fast!").data else [c]))) := by
  simp only [localize_subject, hnick, hsent, Bool.not_true, Bool.and_false,
    pyReplaceChar, replaceCharList_eq_bind]
  simp

/-- Witness for C8: a Bangalore subject already naming the nickname has
both exclamation marks rewritten before truncation. -/
theorem c8_subject_localization_witness :
    pyIn ("high competition") (pyLower bangaloreContext.market_sentiment) =
      true
    ∧ pyIn bangaloreContext.nickname
        ("Act now! Silicon Valley of India calling!") = true
    ∧ localize_subject ("Act now! Silicon Valley of India calling!")
        bangaloreContext =
      pyTake 60 (String.mk
        (("Act now! Silicon Valley of India calling!").data.flatMap
          (fun c => if c == '!' then (" - Act Fast!").data else [c]))) :=
  ⟨by decide, by decide,
    c8_subject_localization ("Act now! Silicon Valley of India calling!")
      bangaloreContext (by decide) (by decide)⟩

/-- C8 counterexample: on the subject with two exclamation marks and the
Bangalore context, the code rewrites BOTH marks; the claim predicts the
first-only rewrite, and the two outputs differ. -/
theorem c8_counterexample :
    localize_subject ("Go! Go!") bangaloreContext =
      "Go - Act Fast! Go - Act Fast! | Silicon Valley of India"
    ∧ localize_subject ("Go! Go!") bangaloreContext ≠
      pyTake 60 (pyReplaceFirstChar ("Go! Go! | Silicon Valley of India") '!'
        (" - Act Fast!")) :=
  ⟨by decide, by decide⟩

/-- C9: the code contradicts the claim for every city with a phrase-table
entry: the context dicts built by _load_city_contexts carry no city key,
so _create_regional_version looks the empty string up in the phrase table
and returns the not-available marker even for Bangalore, whose
phrase-table entry exists.  This theorem evaluates the code at the
failing input of the code_bug record. -/
theorem c9_regional_version_bug (content : GeneratedContent) :
    Option.map (create_regional_version content) (cityContexts ("Bangalore"))
      = some ("Regional version not available for this city.")
    ∧ (regionalLanguages ("Bangalore")).isSome = true
    ∧ Option.map (fun context => context.city) (cityContexts ("Bangalore"))
      = some none :=
  ⟨rfl, rfl, rfl⟩
